import Mathlib

/-!
Verification of the context-resolution engine of the vector-search
question-answer service.

The Python service (`src/services/qa_service.py` and its HTTP controller
`src/controllers/qa_controller.py`) is embedded shallowly below.  External
collaborators (the embedding encoder, the vector index, the answer
generator) are modelled by an `Env` record of fallible functions returning
`Except`; the numeric dissimilarity scores are modelled by rational numbers
so that the threshold comparisons of the source are exact and decidable.
All string operations are re-implemented structurally over `List Char`
(rather than through the ones of the standard library that recurse on
byte positions) so that every definition evaluates inside the kernel.
-/

namespace VectorQA

/-! ## Python string primitives, structurally recursive -/

/-- Python whitespace as used by `str.strip` and `str.split` (ASCII part):
space, tab, newline, vertical tab, form feed, carriage return. -/
def pyIsSpace (c : Char) : Bool :=
  c = ' ' || c = Char.ofNat 9 || c = Char.ofNat 10 || c = Char.ofNat 11 ||
    c = Char.ofNat 12 || c = Char.ofNat 13

/-- Contiguous-sublist test: Python `sub in s` on the underlying characters. -/
def listHasSub (sub : List Char) : List Char → Bool
  | [] => sub.isEmpty
  | c :: rest => List.isPrefixOf sub (c :: rest) || listHasSub sub rest

/-- Python `sub in s` (substring containment; true for the empty `sub`). -/
def strContains (s sub : String) : Bool := listHasSub sub.data s.data

/-- Python `s.startswith(p)`. -/
def strStartsWith (s p : String) : Bool := List.isPrefixOf p.data s.data

/-- Python `s[:n]`. -/
def strTake (s : String) (n : Nat) : String := ⟨s.data.take n⟩

/-- Python `s.lower()`. -/
def lowerStr (s : String) : String := ⟨s.data.map Char.toLower⟩

/-- Python `s.strip()`. -/
def strTrim (s : String) : String :=
  ⟨((s.data.dropWhile pyIsSpace).reverse.dropWhile pyIsSpace).reverse⟩

/-- Characters before the first occurrence of `sep` (Python `s.split(sep)[0]`,
the whole list when `sep` does not occur). -/
def beforeFirstAux (sep : List Char) : List Char → List Char
  | [] => []
  | c :: rest =>
    if List.isPrefixOf sep (c :: rest) then [] else c :: beforeFirstAux sep rest

/-- Python `s.split(sep)[0]` for a non-empty separator. -/
def beforeFirst (s sep : String) : String := ⟨beforeFirstAux sep.data s.data⟩

/-- Helper for Python `s.split()`: accumulate maximal runs of
non-whitespace characters, dropping the empty chunks. -/
def wordsAux (acc : List Char) : List Char → List (List Char)
  | [] => if acc.isEmpty then [] else [acc.reverse]
  | c :: rest =>
    if pyIsSpace c then
      if acc.isEmpty then wordsAux [] rest else acc.reverse :: wordsAux [] rest
    else wordsAux (c :: acc) rest

/-- Python `s.split()` (split on whitespace runs, no empty words). -/
def pySplitWS (s : String) : List String := (wordsAux [] s.data).map (fun l => ⟨l⟩)

/-- Python `' '.join(ws)`. -/
def joinSpace : List String → String
  | [] => ""
  | [w] => w
  | w :: rest => w ++ " " ++ joinSpace rest

/-- Length of the longest prefix whose characters satisfy `p`. -/
def countLeading (p : Char → Bool) : List Char → Nat
  | [] => 0
  | c :: rest => if p c then countLeading p rest + 1 else 0

/-- Exact rational subtraction `a - b` through `mkRat` (the subtraction of
the standard library is sealed irreducible, which blocks kernel
evaluation; this normalized cross-multiplication form denotes the same
rational number). -/
def ratSub (a b : Rat) : Rat := mkRat (a.num * b.den - b.num * a.den) (a.den * b.den)

/-! ## Data model -/

/-- A retrievable product: the dictionaries of `index_service.products_data`,
carrying the canonical grounding text under the key `description`. -/
structure Product where
  description : String
deriving DecidableEq, Repr

/-- One past exchange of the conversation history. -/
structure Exchange where
  question : String
  answer : String
deriving DecidableEq, Repr

/-- The value passed as the `session_data` parameter of `ask_question`.
Besides the intended dictionary shape `{product_context, conversation_history}`
the HTTP controller actually passes a plain string in that position, so the
model keeps both possibilities.  Subscripting the string raises `TypeError`
in the source. -/
inductive SessionArg
  | str (s : String)
  | dict (product_context : Option Product) (conversation_history : List Exchange)
deriving DecidableEq, Repr

/-- The three fields of the dictionary returned by `ask_question` that carry
the turn outcome (the `usage_stats` instrumentation field is out of scope). -/
structure TurnResult where
  answer : String
  context_used : Option Product
  new_product_detected : Bool
deriving DecidableEq, Repr

/-- Reply of the HTTP answer generator: a 200 response carrying the generated
text, or a non-200 status with a body. -/
inductive GenReply
  | success (response_text : String)
  | httpError (status : Nat) (body : String)
deriving DecidableEq, Repr

/-- Observable external calls made by one turn, used to state which
collaborator operations a code path triggers. -/
inductive Call
  | queryRetrieval (query : String)
  | directLookup (strain : String)
  | generate (prompt : String)
deriving DecidableEq, Repr

/-- The external collaborators of the core: embedding encoder, vector index,
distance computation, the product table, and the answer generator.  Every
operation may fail with an exception message. -/
structure Env where
  encode_query : String → Except String (List Rat)
  search_index : List Rat → Nat → Except String (List Nat × List Rat)
  get_product_by_index : Nat → Except String Product
  get_distance : List Rat → List Rat → Except String Rat
  products_data : List Product
  generate : String → Except String GenReply

/-! ## The three extraction regexes of `extract_strain_name`

The source compiles three patterns:

* `about\s+(?:the\s+)?([a-z\s]+?)(?:\s+strain)?[.?]?$`
* the `what` pattern: as the `about` pattern but opened by `what` followed
  by either whitespace and `is`, or optional whitespace and apostrophe-`s`
* a double-quoted pattern capturing a non-empty quote-free body

and runs `re.search` over the lowercased text.  They are modelled below by
direct backtracking matchers that mirror the Python engine: leftmost start
position first, greedy pieces try longer consumption first, the lazy capture
tries shorter capture first. -/

/-- Character class `[a-z\s]` of the capture groups (on lowercased text). -/
def isCapChar (c : Char) : Bool := ('a' ≤ c && c ≤ 'z') || pyIsSpace c

/-- Candidate consumption lengths for a greedy `\s+`: `m` down to `1`. -/
def greedyLens (m : Nat) : List Nat := (List.range m).map (fun i => m - i)

/-- Candidate capture lengths for a lazy `+?`: `1` up to `m`. -/
def lazyLens (m : Nat) : List Nat := (List.range m).map (fun i => i + 1)

def strainLit : List Char := ['s', 't', 'r', 'a', 'i', 'n']
def theLit : List Char := ['t', 'h', 'e']
def aboutLit : List Char := ['a', 'b', 'o', 'u', 't']
def whatLit : List Char := ['w', 'h', 'a', 't']
def isLit : List Char := ['i', 's']
def apoSLit : List Char := [Char.ofNat 39, 's']

/-- Does `(?:\s+strain)?[.?]?$` match the whole remainder `cs`? -/
def matchTailEnd (cs : List Char) : Bool :=
  cs == [] || cs == ['.'] || cs == ['?'] ||
    (let m := countLeading pyIsSpace cs
     decide (0 < m) &&
       (let rest := cs.drop m
        List.isPrefixOf strainLit rest &&
          (let r2 := rest.drop 6
           r2 == [] || r2 == ['.'] || r2 == ['?'])))

/-- Match `([a-z\s]+?)(?:\s+strain)?[.?]?$` against `cs`, returning the
capture (the lazy group takes the shortest length that lets the tail match). -/
def matchCapture (cs : List Char) : Option (List Char) :=
  let m := countLeading isCapChar cs
  (lazyLens m).findSome? (fun j =>
    if matchTailEnd (cs.drop j) then some (cs.take j) else none)

/-- Match `(?:the\s+)?([a-z\s]+?)(?:\s+strain)?[.?]?$` against `cs`:
the optional greedy `the\s+` branch is preferred, longer whitespace first. -/
def matchTheCapture (cs : List Char) : Option (List Char) :=
  (if List.isPrefixOf theLit cs then
     let rest := cs.drop 3
     let m := countLeading pyIsSpace rest
     (greedyLens m).findSome? (fun j => matchCapture (rest.drop j))
   else none) <|> matchCapture cs

/-- Try the `about` pattern at this exact start position. -/
def aboutStep (cs : List Char) : Option (List Char) :=
  if List.isPrefixOf aboutLit cs then
    let rest := cs.drop 5
    let m := countLeading pyIsSpace rest
    (greedyLens m).findSome? (fun j => matchTheCapture (rest.drop j))
  else none

/-- Continuation `\s+(?:the\s+)?([a-z\s]+?)(?:\s+strain)?[.?]?$` shared by the
two alternatives after `what`. -/
def whatContinuation (cs : List Char) : Option (List Char) :=
  let m := countLeading pyIsSpace cs
  (greedyLens m).findSome? (fun j => matchTheCapture (cs.drop j))

/-- Match `(?:\s+is|\s*'s)` then the shared continuation; the `\s+is`
alternative is tried first, as in the source pattern. -/
def afterWhat (cs : List Char) : Option (List Char) :=
  (let m := countLeading pyIsSpace cs
   (greedyLens m).findSome? (fun j =>
     if List.isPrefixOf isLit (cs.drop j) then whatContinuation (cs.drop (j + 2))
     else none))
  <|>
  (let m := countLeading pyIsSpace cs
   ((List.range (m + 1)).map (fun i => m - i)).findSome? (fun j =>
     if List.isPrefixOf apoSLit (cs.drop j) then whatContinuation (cs.drop (j + 2))
     else none))

/-- Try the `what` pattern at this exact start position. -/
def whatStep (cs : List Char) : Option (List Char) :=
  if List.isPrefixOf whatLit cs then afterWhat (cs.drop 4) else none

/-- `re.search`: try the pattern at each start position, leftmost first. -/
def regexSearchAux (step : List Char → Option (List Char)) :
    List Char → Option (List Char)
  | [] => none
  | c :: rest => step (c :: rest) <|> regexSearchAux step rest

/-- Longest quote-free run and the remainder. -/
def spanNonQuote : List Char → List Char × List Char
  | [] => ([], [])
  | c :: rest =>
    if c = Char.ofNat 34 then ([], c :: rest)
    else
      let (a, b) := spanNonQuote rest
      (c :: a, b)

/-- `re.search` of `"([^"]+)"`: the first double quote followed by a
non-empty quote-free run and a closing double quote. -/
def quoteSearch : List Char → Option (List Char)
  | [] => none
  | c :: rest =>
    if c = Char.ofNat 34 then
      let (body, rest2) := spanNonQuote rest
      if body.isEmpty then quoteSearch rest
      else
        match rest2 with
        | [] => quoteSearch rest
        | _ :: _ => some body
    else quoteSearch rest

/-! ## The heuristic vocabulary of the service -/

/-- `COMMON_STRAIN_NAMES` from `qa_service.py`, in source order. -/
def COMMON_STRAIN_NAMES : List String :=
  ["birthday cake", "wedding cake", "purple haze", "blue dream", "sour diesel",
   "girl scout cookies", "northern lights", "og kush", "pineapple express",
   "white widow", "ak-47", "green crack", "granddaddy purple", "jack herer",
   "bubba kush", "durban poison", "gelato", "gorilla glue", "super lemon haze"]

/-- The alternatives of `PRODUCT_NAME_PATTERN` (an `re.IGNORECASE` alternation
of plain literals, so matching is substring containment on lowercased text). -/
def PRODUCT_NAME_KEYWORDS : List String :=
  ["strain", "kush", "og", "haze", "purple", "blue", "green", "cake", "dream",
   "cookies", "diesel", "widow", "skunk", "cheese", "lemon", "herer", "jack",
   "northern", "light", "purple", "sour", "sweet", "berry", "fruit"]

/-- `CONTEXT_SIMILARITY_THRESHOLD = 0.75`. -/
def CONTEXT_SIMILARITY_THRESHOLD : Rat := mkRat 3 4

/-- The follow-up indicator phrases of `detect_topic_change`, in source order. -/
def follow_up_indicators : List String :=
  ["it", "this strain", "this product", "effects", "taste", "smell", "thc",
   "cbd", "potency"]

/-- `contains_potential_product_reference`: `PRODUCT_NAME_PATTERN.search(text)`
is truthy exactly when some alternative occurs in the lowercased text. -/
def contains_potential_product_reference (text : String) : Bool :=
  PRODUCT_NAME_KEYWORDS.any (fun keyword => strContains (lowerStr text) keyword)

/-- `extract_strain_name` from `qa_service.py`: lowercase the text, then try
the curated list, the `about` pattern, the `what` pattern and the quoted-text
pattern, in that order; the captures of the patterns are stripped. -/
def extract_strain_name (text : String) : Option String :=
  let lowered := lowerStr text
  match COMMON_STRAIN_NAMES.find? (fun strain => strContains lowered strain) with
  | some strain => some strain
  | none =>
    match regexSearchAux aboutStep lowered.data with
    | some captured => some (strTrim ⟨captured⟩)
    | none =>
      match regexSearchAux whatStep lowered.data with
      | some captured => some (strTrim ⟨captured⟩)
      | none =>
        match quoteSearch lowered.data with
        | some captured => some (strTrim ⟨captured⟩)
        | none => none

/-! ## Name derivation -/

/-- The last branch of the name-derivation rule: the first one or two words
of the first sentence; an empty word list raises `IndexError` in the source
and the `except` handler returns the generic name. -/
def first_words_name (first_sentence : String) : String :=
  let words := pySplitWS first_sentence
  if words.length > 1 then joinSpace (words.take 2)
  else
    match words with
    | [w] => w
    | _ => "this cannabis product"

/-- `get_product_name` from `qa_service.py`.  The containment test of the
`" strain"` branch lowercases the first sentence, while the split that
follows it runs on the original casing. -/
def get_product_name (product_context : Option Product) : Option String :=
  match product_context with
  | none => none
  | some p =>
    let description := p.description
    let first_sentence := beforeFirst description "."
    some (
      if strContains first_sentence ", also known as" then
        strTrim (beforeFirst first_sentence ", also known as")
      else if strContains first_sentence " is a " then
        strTrim (beforeFirst first_sentence " is a ")
      else if strContains (lowerStr first_sentence) " strain" then
        strTrim (beforeFirst first_sentence " strain")
      else first_words_name first_sentence)

/-- The part of `s` before the first case-insensitive occurrence of `sep`
(`sep` is compared against the lowercased remainder at every position). -/
def beforeFirstCIAux (sep : List Char) : List Char → List Char
  | [] => []
  | c :: rest =>
    if List.isPrefixOf sep ((c :: rest).map Char.toLower) then []
    else c :: beforeFirstCIAux sep rest

/-- The text of `s` before the first case-insensitive occurrence of `sep`. -/
def beforeFirstCI (s sep : String) : String :=
  ⟨beforeFirstCIAux (lowerStr sep).data s.data⟩

/-- The name-derivation rule exactly as claim C5 words it: since the
containment check of the `" strain"` branch is case-insensitive, the split
of that branch is read as cutting at the case-insensitive occurrence. -/
def get_product_name_claimed (p : Product) : String :=
  let first_sentence := beforeFirst p.description "."
  if strContains first_sentence ", also known as" then
    strTrim (beforeFirst first_sentence ", also known as")
  else if strContains first_sentence " is a " then
    strTrim (beforeFirst first_sentence " is a ")
  else if strContains (lowerStr first_sentence) " strain" then
    strTrim (beforeFirstCI first_sentence " strain")
  else first_words_name first_sentence

/-- The amended name-derivation rule: as claim C5, except that the
`" strain"` branch splits at the first case-sensitive (lowercase) occurrence
of `" strain"`, keeping the whole first sentence when the occurrence that
satisfied the case-insensitive containment check is not lowercase. -/
def get_product_name_amended (p : Product) : String :=
  let first_sentence := beforeFirst p.description "."
  if strContains first_sentence ", also known as" then
    strTrim (beforeFirst first_sentence ", also known as")
  else if strContains first_sentence " is a " then
    strTrim (beforeFirst first_sentence " is a ")
  else if strContains (lowerStr first_sentence) " strain" then
    strTrim (beforeFirst first_sentence " strain")
  else first_words_name first_sentence

/-! ## Retrieval -/

/-- `get_product_context_from_query`: encode, search the index with `k = 3`,
accept the top hit only below dissimilarity `0.5`; every failure (including a
distances row shorter than the labels row) is caught and reported as no
match. -/
def get_product_context_from_query (env : Env) (query : String) :
    Option Product × Bool :=
  match env.encode_query query with
  | .error _ => (none, false)
  | .ok query_embedding =>
    match env.search_index query_embedding 3 with
    | .error _ => (none, false)
    | .ok (labels, distances) =>
      match labels with
      | [] => (none, false)
      | l0 :: _ =>
        match distances with
        | [] => (none, false)
        | d0 :: _ =>
          if d0 < mkRat 1 2 then
            match env.get_product_by_index l0 with
            | .error _ => (none, false)
            | .ok product => (some product, true)
          else (none, false)

/-- Stage (a) of the direct strain lookup: the lowercased description starts
with the normalized name, or contains `"<name> strain"`. -/
def stage_a_match (normalized_name : String) (product : Product) : Bool :=
  let desc := lowerStr product.description
  strStartsWith desc normalized_name || strContains desc (normalized_name ++ " strain")

/-- Stage (b) of the direct strain lookup: every word of the normalized name
occurs in the first 100 characters of the lowercased description. -/
def stage_b_match (normalized_name : String) (product : Product) : Bool :=
  let desc := lowerStr product.description
  (pySplitWS normalized_name).all (fun word => strContains (strTake desc 100) word)

/-- `get_product_by_strain_name`: scan the product table for a stage (a)
match, then a stage (b) match, then fall back to an embedding search on
`"<name> strain"` with `k = 1` accepted below dissimilarity `0.4`; every
failure is caught and reported as no match. -/
def get_product_by_strain_name (env : Env) (strain_name : String) :
    Option Product × Bool :=
  let normalized_name := strTrim (lowerStr strain_name)
  match env.products_data.find? (stage_a_match normalized_name) with
  | some product => (some product, true)
  | none =>
    match env.products_data.find? (stage_b_match normalized_name) with
    | some product => (some product, true)
    | none =>
      match env.encode_query (strain_name ++ " strain") with
      | .error _ => (none, false)
      | .ok query_embedding =>
        match env.search_index query_embedding 1 with
        | .error _ => (none, false)
        | .ok (labels, distances) =>
          match labels with
          | [] => (none, false)
          | l0 :: _ =>
            match distances with
            | [] => (none, false)
            | d0 :: _ =>
              if d0 < mkRat 2 5 then
                match env.get_product_by_index l0 with
                | .error _ => (none, false)
                | .ok product => (some product, true)
              else (none, false)

/-! ## Topic-change detection -/

/-- `detect_topic_change`: an absent context is always a new topic; a
follow-up indicator or the derived product name occurring in the question
keeps the context; otherwise the embedding similarity decides against the
`0.75` threshold, overridden to `false` when the question carries no product
keyword; every similarity failure is caught as `false`. -/
def detect_topic_change (env : Env) (question : String)
    (current_product_context : Option Product) : Bool :=
  match current_product_context with
  | none => true
  | some ctx =>
    if follow_up_indicators.any
        (fun indicator => strContains (lowerStr question) (lowerStr indicator)) then
      false
    else if (match get_product_name (some ctx) with
             | some product_name =>
               product_name ≠ "" && strContains (lowerStr question) (lowerStr product_name)
             | none => false) then
      false
    else
      match env.encode_query question with
      | .error _ => false
      | .ok question_embedding =>
        match env.encode_query ctx.description with
        | .error _ => false
        | .ok description_embedding =>
          match env.get_distance question_embedding description_embedding with
          | .error _ => false
          | .ok distance =>
            let similarity_score := ratSub 1 distance
            let is_new_topic := similarity_score < CONTEXT_SIMILARITY_THRESHOLD
            if is_new_topic && !contains_potential_product_reference question then
              false
            else is_new_topic

/-! ## The turn orchestrator `ask_question` -/

/-- The first stage of `ask_question` (source lines 55–75): pick the initial
context from the session or a fresh query retrieval.  Subscripting a plain
string passed as `session_data` raises `TypeError`, surfaced here as the
`Except` error that the orchestrator's catch-all turns into the apology. -/
def resolve_initial_context (env : Env) (question : String)
    (session_data : Option SessionArg) :
    Except String ((Option Product × Bool) × List Call) :=
  match session_data with
  | none =>
    .ok (get_product_context_from_query env question, [Call.queryRetrieval question])
  | some (.str _) => .error "TypeError: string indices must be integers"
  | some (.dict product_context _) =>
    match product_context with
    | none =>
      .ok (get_product_context_from_query env question, [Call.queryRetrieval question])
    | some ctx =>
      if detect_topic_change env question (some ctx) &&
          contains_potential_product_reference question then
        match get_product_context_from_query env question with
        | (context_used, true) =>
          .ok ((context_used, true), [Call.queryRetrieval question])
        | (_, false) => .ok ((some ctx, false), [Call.queryRetrieval question])
      else .ok ((some ctx, false), [])

/-- The guard of the explicit-strain override (source line 79): no context
chosen so far, or its derived name differs case-insensitively from the
extracted name. -/
def derived_name_differs (context_used : Option Product) (detected : String) : Bool :=
  match context_used with
  | none => true
  | some c => lowerStr ((get_product_name (some c)).getD "") != lowerStr detected

/-- The explicit-strain override of `ask_question` (source lines 78–85):
when the extractor yields a non-empty name that differs case-insensitively
from the name of the context chosen so far (or no context was chosen), run
the direct strain lookup, and overwrite the context on success. -/
def apply_strain_override (env : Env) (question : String)
    (context_used : Option Product) (new_product_detected : Bool) :
    (Option Product × Bool) × List Call :=
  match extract_strain_name question with
  | none => ((context_used, new_product_detected), [])
  | some detected =>
    if detected = "" then ((context_used, new_product_detected), [])
    else
      if derived_name_differs context_used detected then
        match get_product_by_strain_name env detected with
        | (direct_context, true) => ((direct_context, true), [Call.directLookup detected])
        | (_, false) =>
          ((context_used, new_product_detected), [Call.directLookup detected])
      else ((context_used, new_product_detected), [])

/-- Context resolution of one turn: the initial choice followed by the
explicit-strain override, with the external calls of both stages recorded. -/
def resolve_context (env : Env) (question : String)
    (session_data : Option SessionArg) :
    Except String ((Option Product × Bool) × List Call) :=
  match resolve_initial_context env question session_data with
  | .error e => .error e
  | .ok ((c0, n0), calls0) =>
    let step := apply_strain_override env question c0 n0
    .ok (step.1, calls0 ++ step.2)

/-- The rendered transcript of prior turns (source lines 99–103). -/
def build_conversation_context (session_data : Option SessionArg) : String :=
  match session_data with
  | some (.dict _ conversation_history) =>
    if conversation_history.isEmpty then ""
    else
      "\nPrevious conversation:\n" ++
        String.join (conversation_history.map (fun exchange =>
          "Customer: " ++ exchange.question ++ "\nSupport: " ++ exchange.answer ++ "\n"))
  | _ => ""

/-- The instruction block sent to the generator (the f-string of source
lines 106–125). -/
def build_prompt (context conversation_context question product_name : String) :
    String :=
  "\n        You work at a cannabis dispensary answering customer questions. Keep responses between 10-50 words unless absolutely necessary.\n\n        Product facts: " ++
    context ++
    "\n        \n        " ++
    conversation_context ++
    "\n        \n        Customer: " ++
    question ++
    "\n        \n        Rules for your response:\n        1. Be direct and concise (10-50 words)\n        2. No greetings, no sign-offs\n        3. No \"I\x27d be happy to help\" or similar phrases\n        4. No unnecessary politeness\n        5. Just answer the specific question about " ++
    product_name ++
    "\n        6. If you don\x27t have info, just say so briefly\n        7. Skip educational explanations unless specifically asked\n        \n        Reply:\n        "

/-- The degraded result produced by the catch-all `except` handler of
`ask_question`. -/
def apology_result : TurnResult :=
  { answer := "Sorry, couldn\x27t process your question. Try again."
    context_used := none
    new_product_detected := false }

/-- `ask_question` from `qa_service.py`: resolve the context, compose the
prompt, call the generator; a 200 reply is packaged with the stripped answer
text, anything else (transport error, non-200 status, or an internal
exception such as the `TypeError` from a string `session_data`) degrades to
the apology result. -/
def ask_question (env : Env) (question : String)
    (session_data : Option SessionArg) : TurnResult × List Call :=
  match resolve_context env question session_data with
  | .error _ => (apology_result, [])
  | .ok ((context_used, new_product_detected), calls) =>
    let context : String :=
      match context_used with
      | none =>
        "You are a helpful customer support agent for a cannabis dispensary. The customer asked about " ++
          (match extract_strain_name question with
           | some n => if n = "" then "a product" else n
           | none => "a product") ++
          ", but we couldn\x27t find specific information about it."
      | some p => p.description
    let conversation_context := build_conversation_context session_data
    let product_name : String :=
      match context_used with
      | some p => (get_product_name (some p)).getD "this cannabis product"
      | none =>
        match extract_strain_name question with
        | some n => if n = "" then "this product" else n
        | none => "this product"
    let prompt := build_prompt context conversation_context question product_name
    match env.generate prompt with
    | .error _ => (apology_result, calls ++ [Call.generate prompt])
    | .ok (GenReply.httpError _ _) => (apology_result, calls ++ [Call.generate prompt])
    | .ok (GenReply.success response_text) =>
      ({ answer := strTrim response_text
         context_used := context_used
         new_product_detected := new_product_detected },
       calls ++ [Call.generate prompt])

/-! ## The HTTP controller -/

/-- The hard-coded context string of `qa_controller.py`. -/
def KANDY_KUSH_CONTEXT : String :=
  "Kandy Kush, also known as \"Candy Kush,\" is a hybrid marijuana strain and a favorite of DNA Genetics\x27 Reserva Privada line that combines two California classics, OG Kush (thought to be the \"Christopher Wallace\" cut) and Trainwreck, to make a tasty indica-dominant hybrid (although sativa phenotypes displaying more of the Trainwreck structure have been noted). Like the name suggests, the flavor is sweet like candy with a strong lemon-Kush scent. Popular with medicinal growers, Kandy Kush provides a potent body high with pronounced pain relief.\nType: Hybrid\nTHC: 18%\nCBD: 0%"

/-- The `/qa` route of `qa_controller.py`: an empty stripped `q` is rejected
with a 400 (`none` here); otherwise the service is called as
`ask_question(context, question)` — the hard-coded context string in the
`question` position and the user's question in the `session_data` position. -/
def qa_route (env : Env) (q : String) : Option (String × TurnResult) :=
  let question := strTrim q
  if question = "" then none
  else
    some (question,
      (ask_question env KANDY_KUSH_CONTEXT (some (SessionArg.str question))).1)

/-! ## Fixtures for concrete evaluation -/

/-- A product whose description matches none of the heuristic vocabulary. -/
def prodZeta : Product := ⟨"Zeta is a hybrid."⟩

/-- Collaborators that always answer: the index returns `prodZeta` at
dissimilarity `0`, the distance between any two embeddings is `1`, and the
generator replies 200 with the text `"ok"`. -/
def envHit : Env :=
  { encode_query := fun _ => .ok [1]
    search_index := fun _ _ => .ok ([0], [0])
    get_product_by_index := fun _ => .ok prodZeta
    get_distance := fun _ _ => .ok 1
    products_data := []
    generate := fun _ => .ok (.success "ok") }

/-- As `envHit`, but the generator raises a transport error. -/
def envGenFail : Env :=
  { envHit with generate := fun _ => .error "requests.exceptions.ConnectionError" }

/-! ## Shared lemmas -/

/-- A question containing any follow-up indicator short-circuits
`detect_topic_change` to `false` before the name and similarity checks. -/
theorem detect_topic_change_of_indicator (env : Env) (question : String)
    (ctx : Product)
    (h : follow_up_indicators.any
      (fun indicator => strContains (lowerStr question) (lowerStr indicator)) = true) :
    detect_topic_change env question (some ctx) = false := by
  simp [detect_topic_change, h]

/-- A query retrieval that reports `found = true` carries a product. -/
theorem found_context_pair (env : Env) (query : String) (c : Option Product)
    (h : get_product_context_from_query env query = (c, true)) :
    c.isSome = true := by
  unfold get_product_context_from_query at h
  rcases he : env.encode_query query with e | emb
  · simp [he] at h
  · rcases hs : env.search_index emb 3 with e | ⟨labels, distances⟩
    · simp [he, hs] at h
    · rcases labels with - | ⟨l0, ls⟩
      · simp [he, hs] at h
      · rcases distances with - | ⟨d0, ds⟩
        · simp [he, hs] at h
        · by_cases hd : d0 < mkRat 1 2
          · rcases hp : env.get_product_by_index l0 with e | p
            · simp [he, hs, hd, hp] at h
            · simp only [he, hs, hd, hp, if_true] at h
              rw [Prod.mk.injEq] at h
              rw [← h.1]
              rfl
          · simp [he, hs, hd] at h

/-- A direct strain lookup that reports `found = true` carries a product. -/
theorem found_strain_pair (env : Env) (strain_name : String) (c : Option Product)
    (h : get_product_by_strain_name env strain_name = (c, true)) :
    c.isSome = true := by
  unfold get_product_by_strain_name at h
  rcases ha : List.find? (stage_a_match (strTrim (lowerStr strain_name)))
      env.products_data with - | pa
  · rcases hb : List.find? (stage_b_match (strTrim (lowerStr strain_name)))
        env.products_data with - | pb
    · rcases he : env.encode_query (strain_name ++ " strain") with e | emb
      · simp [ha, hb, he] at h
      · rcases hs : env.search_index emb 1 with e | ⟨labels, distances⟩
        · simp [ha, hb, he, hs] at h
        · rcases labels with - | ⟨l0, ls⟩
          · simp [ha, hb, he, hs] at h
          · rcases distances with - | ⟨d0, ds⟩
            · simp [ha, hb, he, hs] at h
            · by_cases hd : d0 < mkRat 2 5
              · rcases hp : env.get_product_by_index l0 with e | p
                · simp [ha, hb, he, hs, hd, hp] at h
                · simp only [ha, hb, he, hs, hd, hp, if_true] at h
                  rw [Prod.mk.injEq] at h
                  rw [← h.1]
                  rfl
              · simp [ha, hb, he, hs, hd] at h
    · simp only [ha, hb] at h
      rw [Prod.mk.injEq] at h
      rw [← h.1]
      rfl
  · simp only [ha] at h
    rw [Prod.mk.injEq] at h
    rw [← h.1]
    rfl

/-- The initial context resolution reports `new_product_detected = true`
only together with a present context. -/
theorem resolve_initial_found_isSome (env : Env) (question : String)
    (session_data : Option SessionArg) (c : Option Product) (calls : List Call)
    (h : resolve_initial_context env question session_data =
      .ok ((c, true), calls)) :
    c.isSome = true := by
  cases session_data with
  | none =>
    rcases hq : get_product_context_from_query env question with ⟨cq, bq⟩
    simp only [resolve_initial_context] at h
    rw [hq] at h
    rw [Except.ok.injEq, Prod.mk.injEq, Prod.mk.injEq] at h
    exact found_context_pair env question c (by rw [hq, h.1.1, h.1.2])
  | some arg =>
    cases arg with
    | str s => exact absurd h (by simp [resolve_initial_context])
    | dict pc hist =>
      cases pc with
      | none =>
        rcases hq : get_product_context_from_query env question with ⟨cq, bq⟩
        simp only [resolve_initial_context] at h
        rw [hq] at h
        rw [Except.ok.injEq, Prod.mk.injEq, Prod.mk.injEq] at h
        exact found_context_pair env question c (by rw [hq, h.1.1, h.1.2])
      | some ctx =>
        simp only [resolve_initial_context] at h
        split at h
        · rcases hq : get_product_context_from_query env question with ⟨cq, bq⟩
          rw [hq] at h
          cases bq with
          | true =>
            simp only [Except.ok.injEq, Prod.mk.injEq] at h
            exact found_context_pair env question c (by rw [hq, h.1.1])
          | false =>
            simp only [Except.ok.injEq, Prod.mk.injEq] at h
            exact absurd h.1.2 (by decide)
        · rw [Except.ok.injEq, Prod.mk.injEq, Prod.mk.injEq] at h
          exact absurd h.1.2 (by decide)

/-- The strain override reports `new_product_detected = true` only together
with a present context, provided the incoming pair already satisfied this. -/
theorem override_found_isSome (env : Env) (question : String)
    (c0 : Option Product) (n0 : Bool) (cu : Option Product) (calls : List Call)
    (hprev : n0 = true → c0.isSome = true)
    (h : apply_strain_override env question c0 n0 = ((cu, true), calls)) :
    cu.isSome = true := by
  unfold apply_strain_override at h
  cases hext : extract_strain_name question with
  | none =>
    rw [hext] at h
    rw [Prod.mk.injEq, Prod.mk.injEq] at h
    exact h.1.1 ▸ hprev h.1.2
  | some detected =>
    rw [hext] at h
    by_cases hd : detected = ""
    · simp only [hd, if_true, Prod.mk.injEq] at h
      exact h.1.1 ▸ hprev h.1.2
    · simp only [hd, if_false] at h
      split at h
      · rcases hl : get_product_by_strain_name env detected with ⟨dc, db⟩
        rw [hl] at h
        cases db with
        | true =>
          simp only [Prod.mk.injEq] at h
          exact found_strain_pair env detected cu (by rw [hl, h.1.1])
        | false =>
          simp only [Prod.mk.injEq] at h
          exact h.1.1 ▸ hprev h.1.2
      · rw [Prod.mk.injEq, Prod.mk.injEq] at h
        exact h.1.1 ▸ hprev h.1.2

/-- Whole-turn context resolution reports `topic_changed = true` only
together with a present context. -/
theorem resolve_context_found_isSome (env : Env) (question : String)
    (session_data : Option SessionArg) (cu : Option Product) (calls : List Call)
    (h : resolve_context env question session_data = .ok ((cu, true), calls)) :
    cu.isSome = true := by
  unfold resolve_context at h
  cases hr : resolve_initial_context env question session_data with
  | error e => rw [hr] at h; exact Except.noConfusion h
  | ok v =>
    obtain ⟨⟨c0, n0⟩, calls0⟩ := v
    rw [hr] at h
    rw [Except.ok.injEq, Prod.mk.injEq] at h
    obtain ⟨h1, -⟩ := h
    have hprev : n0 = true → c0.isSome = true := fun hn =>
      resolve_initial_found_isSome env question session_data c0 calls0 (hn ▸ hr)
    exact override_found_isSome env question c0 n0 cu
      (apply_strain_override env question c0 n0).2 hprev
      (by rw [← h1])

/-- The calls of the initial resolution never include a direct lookup. -/
theorem resolve_initial_no_direct (env : Env) (question : String)
    (session_data : Option SessionArg) (c0 : Option Product) (n0 : Bool)
    (tr0 : List Call)
    (h : resolve_initial_context env question session_data = .ok ((c0, n0), tr0)) :
    ∀ s, Call.directLookup s ∉ tr0 := by
  have htr : tr0 = [] ∨ tr0 = [Call.queryRetrieval question] := by
    cases session_data with
    | none =>
      simp only [resolve_initial_context] at h
      rw [Except.ok.injEq, Prod.mk.injEq] at h
      exact Or.inr h.2.symm
    | some arg =>
      cases arg with
      | str s => exact absurd h (by simp [resolve_initial_context])
      | dict pc hist =>
        cases pc with
        | none =>
          simp only [resolve_initial_context] at h
          rw [Except.ok.injEq, Prod.mk.injEq] at h
          exact Or.inr h.2.symm
        | some ctx =>
          simp only [resolve_initial_context] at h
          split at h
          · rcases hq : get_product_context_from_query env question with ⟨cq, bq⟩
            rw [hq] at h
            cases bq with
            | true =>
              simp only [Except.ok.injEq, Prod.mk.injEq] at h
              exact Or.inr h.2.symm
            | false =>
              simp only [Except.ok.injEq, Prod.mk.injEq] at h
              exact Or.inr h.2.symm
          · rw [Except.ok.injEq, Prod.mk.injEq] at h
            exact Or.inl h.2.symm
  intro s
  rcases htr with ht | ht <;> rw [ht] <;> simp

/-! ## Claim C1 -/

/-- Claim C1: the HTTP controller calls `ask_question(context, question)`,
binding the user's question to the `session_data` parameter; for every
non-empty string `q` and every string `c`, `ask_question c q` returns the
fixed apology result (apology answer, no context, no new product), because
subscripting the string raises `TypeError` into the catch-all handler; hence
no `/qa` request is ever answered from a resolved product context. -/
theorem controller_swaps_arguments_into_apology (env : Env) (c q : String)
    (_hq : q ≠ "") :
    (ask_question env c (some (SessionArg.str q))).1 = apology_result ∧
    ∀ resp, qa_route env q = some resp → resp.2 = apology_result := by
  refine ⟨rfl, ?_⟩
  intro resp hresp
  simp only [qa_route] at hresp
  split at hresp
  · exact Option.noConfusion hresp
  · cases hresp
    rfl

/-- Witness for C1 at a concrete question. -/
theorem controller_swaps_arguments_into_apology_witness :
    (ask_question envHit "some context text" (some (SessionArg.str "what is og kush"))).1 =
      apology_result :=
  (controller_swaps_arguments_into_apology envHit "some context text"
    "what is og kush" (by decide)).1

/-! ## Claim C2 -/

/-- Counterexample to claim C2 as stated: with a live session holding
`prodZeta` and the question `"kush?"` (no follow-up indicator, no name
match, similarity `0` below the threshold, and the keyword `"kush"`
present), the fresh retrieval returns the very same product, so the turn
reports `new_product_detected = true` while `context_used` equals the
previous session context — the claimed invariant fails. -/
theorem topic_change_same_context_counterexample :
    (ask_question envHit "kush?"
        (some (SessionArg.dict (some prodZeta) []))).1.new_product_detected = true ∧
    (ask_question envHit "kush?"
        (some (SessionArg.dict (some prodZeta) []))).1.context_used = some prodZeta := by
  decide

/-- Claim C2 amended: `topic_changed = true` implies that a retrieval
succeeded during the turn, so `context_used` is present — but it may
coincide with the previous session context, so the claimed "differs from
the previous context" does not hold. -/
theorem new_product_implies_context_present (env : Env) (question : String)
    (session_data : Option SessionArg)
    (h : (ask_question env question session_data).1.new_product_detected = true) :
    (ask_question env question session_data).1.context_used.isSome = true := by
  rcases hr : resolve_context env question session_data with e | ⟨⟨cu, npd⟩, calls⟩
  · rw [show (ask_question env question session_data).1 = apology_result by
      simp [ask_question, hr]] at h
    exact absurd h (by decide)
  · have hres : (ask_question env question session_data).1 = apology_result ∨
        ((ask_question env question session_data).1.context_used = cu ∧
          (ask_question env question session_data).1.new_product_detected = npd) := by
      simp only [ask_question, hr]
      split
      · exact Or.inl rfl
      · exact Or.inl rfl
      · exact Or.inr ⟨rfl, rfl⟩
    rcases hres with hres | ⟨hc, hn⟩
    · rw [hres] at h
      exact absurd h (by decide)
    · rw [hc]
      rw [hn] at h
      exact resolve_context_found_isSome env question session_data cu calls (h ▸ hr)

/-- Witness for the amended C2 at the counterexample scenario. -/
theorem new_product_implies_context_present_witness :
    (ask_question envHit "kush?"
        (some (SessionArg.dict (some prodZeta) []))).1.context_used.isSome = true :=
  new_product_implies_context_present envHit "kush?"
    (some (SessionArg.dict (some prodZeta) [])) (by decide)

/-! ## Claim C3 -/

/-- Claim C3: whenever the external answer generator fails — a transport
error or a non-200 status, i.e. it never produces a success reply — the
orchestrator does not raise (it is a total function) and returns the short
apology answer with `context_used` absent and `new_product_detected`
`false`, for every question and session state; the internal-`TypeError`
path is covered by the same catch-all and handled inside the proof. -/
theorem generator_failure_yields_apology (env : Env) (question : String)
    (session_data : Option SessionArg)
    (hgen : ∀ prompt text, env.generate prompt ≠ Except.ok (GenReply.success text)) :
    (ask_question env question session_data).1.answer =
        "Sorry, couldn\x27t process your question. Try again." ∧
    (ask_question env question session_data).1.context_used = none ∧
    (ask_question env question session_data).1.new_product_detected = false := by
  have hmain : (ask_question env question session_data).1 = apology_result := by
    rcases hr : resolve_context env question session_data with e | ⟨⟨cu, npd⟩, calls⟩
    · simp [ask_question, hr]
    · simp only [ask_question, hr]
      split
      · rfl
      · rfl
      · rename_i heq
        exact absurd heq (hgen _ _)
  rw [hmain]
  exact ⟨rfl, rfl, rfl⟩

/-- Witness for C3: a transport error from the generator degrades to the
apology on a live session. -/
theorem generator_failure_yields_apology_witness :
    (ask_question envGenFail "How is the taste?"
        (some (SessionArg.dict (some prodZeta) []))).1.answer =
        "Sorry, couldn\x27t process your question. Try again." ∧
    (ask_question envGenFail "How is the taste?"
        (some (SessionArg.dict (some prodZeta) []))).1.context_used = none ∧
    (ask_question envGenFail "How is the taste?"
        (some (SessionArg.dict (some prodZeta) []))).1.new_product_detected = false :=
  generator_failure_yields_apology envGenFail "How is the taste?"
    (some (SessionArg.dict (some prodZeta) []))
    (fun _ _ h => Except.noConfusion h)

/-! ## Claim C4 -/

/-- Claim C4: after the initial context choice, when the extractor yields a
(non-empty) name that differs case-insensitively from the name derived from
the chosen context — or no context was chosen — the resolver attempts the
direct strain lookup (its call appears in the trace), and a successful
lookup overwrites the chosen context with `topic_changed = true`; when the
extracted name equals the derived name case-insensitively, no direct lookup
is triggered and the initial choice passes through unchanged. -/
theorem explicit_strain_override (env : Env) (question : String)
    (session_data : Option SessionArg) (c0 : Option Product) (n0 : Bool)
    (tr0 : List Call) (detected : String)
    (hinit : resolve_initial_context env question session_data =
      .ok ((c0, n0), tr0))
    (hext : extract_strain_name question = some detected)
    (hne : detected ≠ "") :
    ((c0 = none ∨ ∃ c, c0 = some c ∧
        lowerStr ((get_product_name (some c)).getD "") ≠ lowerStr detected) →
      (∃ c1 n1, resolve_context env question session_data =
          .ok ((c1, n1), tr0 ++ [Call.directLookup detected])) ∧
      (∀ p, get_product_by_strain_name env detected = (some p, true) →
        resolve_context env question session_data =
          .ok ((some p, true), tr0 ++ [Call.directLookup detected]))) ∧
    ((∃ c, c0 = some c ∧
        lowerStr ((get_product_name (some c)).getD "") = lowerStr detected) →
      resolve_context env question session_data = .ok ((c0, n0), tr0) ∧
      ∀ s, Call.directLookup s ∉ tr0) := by
  have hres : resolve_context env question session_data =
      .ok ((apply_strain_override env question c0 n0).1,
        tr0 ++ (apply_strain_override env question c0 n0).2) := by
    unfold resolve_context
    rw [hinit]
  constructor
  · intro hdiff
    have hnd : derived_name_differs c0 detected = true := by
      rcases hdiff with hnone | ⟨c, hc0, hne2⟩
      · rw [hnone]
        rfl
      · rw [hc0]
        simp only [derived_name_differs]
        exact bne_iff_ne.mpr hne2
    constructor
    · rcases hl : get_product_by_strain_name env detected with ⟨dc, db⟩
      cases db with
      | true =>
        refine ⟨dc, true, ?_⟩
        rw [hres]
        unfold apply_strain_override
        rw [hext]
        simp [hne, hnd, hl]
      | false =>
        refine ⟨c0, n0, ?_⟩
        rw [hres]
        unfold apply_strain_override
        rw [hext]
        simp [hne, hnd, hl]
    · intro p hp
      rw [hres]
      unfold apply_strain_override
      rw [hext]
      simp [hne, hnd, hp]
  · rintro ⟨c, hc0, heqname⟩
    have hnd : derived_name_differs c0 detected = false := by
      rw [hc0]
      simp only [derived_name_differs, bne_eq_false_iff_eq]
      exact heqname
    refine ⟨?_, resolve_initial_no_direct env question session_data c0 n0 tr0 hinit⟩
    rw [hres]
    unfold apply_strain_override
    rw [hext]
    simp [hne, hnd]

/-- Collaborators for the C4 witness: the encoder is down (so the query
retrieval and stage (c) fail) but the product table carries a stage (a)
match for `"og kush"`. -/
def envLookup : Env :=
  { envHit with
      encode_query := fun _ => .error "encoder down"
      products_data := [⟨"og kush strain premium."⟩] }

/-- Witness for C4: with no session, the initial resolution finds nothing,
the extracted name `"og kush"` differs from the absent context, the direct
lookup is attempted (it appears in the trace) and its success overwrites
the context with `topic_changed = true`. -/
theorem explicit_strain_override_witness :
    resolve_context envLookup "tell me about og kush" none =
      .ok ((some ⟨"og kush strain premium."⟩, true),
        [Call.queryRetrieval "tell me about og kush",
         Call.directLookup "og kush"]) := by
  have h := (explicit_strain_override envLookup "tell me about og kush" none
      none false [Call.queryRetrieval "tell me about og kush"] "og kush"
      rfl rfl (by decide)).1 (Or.inl rfl)
  exact h.2 ⟨"og kush strain premium."⟩ rfl

/-! ## Claim C8 -/

/-- Claim C8: `get_product_context_from_query` searches the index for the
top-3 neighbours of the encoded query and reports the top hit with
`found = true` exactly when its dissimilarity is below `0.5`; an empty
result, an encoder failure or an index failure all report no match without
propagating the error. -/
theorem query_retrieval_threshold (env : Env) (query : String) :
    (∀ e, env.encode_query query = .error e →
      get_product_context_from_query env query = (none, false)) ∧
    (∀ emb e, env.encode_query query = .ok emb →
      env.search_index emb 3 = .error e →
      get_product_context_from_query env query = (none, false)) ∧
    (∀ emb ds, env.encode_query query = .ok emb →
      env.search_index emb 3 = .ok ([], ds) →
      get_product_context_from_query env query = (none, false)) ∧
    (∀ emb l ls d ds p, env.encode_query query = .ok emb →
      env.search_index emb 3 = .ok (l :: ls, d :: ds) →
      env.get_product_by_index l = .ok p →
      get_product_context_from_query env query =
        (if d < mkRat 1 2 then (some p, true) else (none, false))) := by
  refine ⟨?_, ?_, ?_, ?_⟩
  · intro e he
    simp [get_product_context_from_query, he]
  · intro emb e he hs
    simp [get_product_context_from_query, he, hs]
  · intro emb ds he hs
    simp [get_product_context_from_query, he, hs]
  · intro emb l ls d ds p he hs hp
    simp only [get_product_context_from_query, he, hs]
    split
    · simp [hp]
    · rfl

/-- Witness for C8: the stubbed index answers at dissimilarity `0`, below
the threshold, so the top product is returned as found. -/
theorem query_retrieval_threshold_witness :
    get_product_context_from_query envHit "tell me about blue dream" =
      (some prodZeta, true) := by
  have h := (query_retrieval_threshold envHit "tell me about blue dream").2.2.2
    [1] 0 [] 0 [] prodZeta rfl rfl rfl
  rw [if_pos (by decide)] at h
  exact h

/-! ## Claim C7 -/

/-- Claim C7: the direct strain lookup runs three stages in order and the
first stage producing a match wins, each stage scanning the candidate set
in its fixed order and returning the first satisfying candidate: (a) the
lowercased description starts with the normalized name or contains
`"<name> strain"`; (b) every word of the name occurs in the first 100
characters of the description; (c) an embedding search on
`"<name> strain"`, accepted only below dissimilarity `0.4`; when every
stage fails, no match is reported. -/
theorem strain_lookup_stage_order (env : Env) (strain_name : String) :
    (∀ p, env.products_data.find?
        (stage_a_match (strTrim (lowerStr strain_name))) = some p →
      get_product_by_strain_name env strain_name = (some p, true)) ∧
    (env.products_data.find? (stage_a_match (strTrim (lowerStr strain_name))) = none →
      ∀ p, env.products_data.find?
          (stage_b_match (strTrim (lowerStr strain_name))) = some p →
        get_product_by_strain_name env strain_name = (some p, true)) ∧
    (env.products_data.find? (stage_a_match (strTrim (lowerStr strain_name))) = none →
      env.products_data.find? (stage_b_match (strTrim (lowerStr strain_name))) = none →
      ∀ emb l ls d ds p,
        env.encode_query (strain_name ++ " strain") = .ok emb →
        env.search_index emb 1 = .ok (l :: ls, d :: ds) →
        env.get_product_by_index l = .ok p →
        get_product_by_strain_name env strain_name =
          (if d < mkRat 2 5 then (some p, true) else (none, false))) ∧
    (env.products_data.find? (stage_a_match (strTrim (lowerStr strain_name))) = none →
      env.products_data.find? (stage_b_match (strTrim (lowerStr strain_name))) = none →
      ∀ emb ds, env.encode_query (strain_name ++ " strain") = .ok emb →
        env.search_index emb 1 = .ok ([], ds) →
        get_product_by_strain_name env strain_name = (none, false)) := by
  refine ⟨?_, ?_, ?_, ?_⟩
  · intro p ha
    simp [get_product_by_strain_name, ha]
  · intro ha p hb
    simp [get_product_by_strain_name, ha, hb]
  · intro ha hb emb l ls d ds p he hs hp
    simp only [get_product_by_strain_name, ha, hb, he, hs]
    split
    · simp [hp]
    · rfl
  · intro ha hb emb ds he hs
    simp [get_product_by_strain_name, ha, hb, he, hs]

/-- Witness for C7: stage (a) finds the first candidate whose description
contains `"og kush strain"`, before any embedding call. -/
theorem strain_lookup_stage_order_witness :
    get_product_by_strain_name
        { envHit with
            products_data := [⟨"Zkittlez mango."⟩, ⟨"The famous og kush strain of Los Angeles."⟩]
            encode_query := fun _ => .error "encoder down" }
        "OG Kush" =
      (some ⟨"The famous og kush strain of Los Angeles."⟩, true) :=
  (strain_lookup_stage_order
      { envHit with
          products_data := [⟨"Zkittlez mango."⟩, ⟨"The famous og kush strain of Los Angeles."⟩]
          encode_query := fun _ => .error "encoder down" }
      "OG Kush").1
    ⟨"The famous og kush strain of Los Angeles."⟩ (by decide)

/-! ## Claim C5 -/

/-- Counterexample to claim C5 as stated: on the description
`"Blue Dream STRAIN."`, the first sentence contains `" strain"`
case-insensitively but not case-sensitively, so the rule of the claim (cut
at the case-insensitive occurrence) yields `"Blue Dream"` while the code
splits case-sensitively, finds no occurrence, and returns the whole first
sentence `"Blue Dream STRAIN"`. -/
theorem product_name_mixed_case_counterexample :
    strContains (lowerStr (beforeFirst "Blue Dream STRAIN." ".")) " strain" = true ∧
    strContains (beforeFirst "Blue Dream STRAIN." ".") ", also known as" = false ∧
    strContains (beforeFirst "Blue Dream STRAIN." ".") " is a " = false ∧
    get_product_name_claimed ⟨"Blue Dream STRAIN."⟩ = "Blue Dream" ∧
    get_product_name (some ⟨"Blue Dream STRAIN."⟩) = some "Blue Dream STRAIN" ∧
    get_product_name (some ⟨"Blue Dream STRAIN."⟩) ≠
      some (get_product_name_claimed ⟨"Blue Dream STRAIN."⟩) := by
  decide

/-- Claim C5 amended: `get_product_name` takes the text up to the first
period and applies, in order, the `", also known as"` split, the `" is a "`
split, the case-insensitively-checked but case-sensitively-performed
`" strain"` split, and the first-one-or-two-words fallback whose failure
yields the generic name. -/
theorem product_name_follows_amended_rule (p : Product) :
    get_product_name (some p) = some (get_product_name_amended p) := rfl

/-! ## Claim C6 -/

/-- Claim C6: for every question containing one of the follow-up indicator
phrases and every present product context, `detect_topic_change` returns
`false`, whatever the collaborators (hence whatever the embedding
similarity) say. -/
theorem follow_up_indicator_keeps_context (env : Env) (question : String)
    (ctx : Product)
    (h : follow_up_indicators.any
      (fun indicator => strContains (lowerStr question) (lowerStr indicator)) = true) :
    detect_topic_change env question (some ctx) = false :=
  detect_topic_change_of_indicator env question ctx h

/-- Witness for C6: the indicator `"taste"` keeps the context even though
the stubbed similarity is far below the threshold. -/
theorem follow_up_indicator_keeps_context_witness :
    detect_topic_change envHit "How is the taste?" (some prodZeta) = false :=
  follow_up_indicator_keeps_context envHit "How is the taste?" prodZeta (by decide)

/-! ## Claim C9 -/

/-- Counterexample to claim C9 as stated: a text containing the curated
name `"wedding cake"` does not make the extractor return that name when an
earlier entry of the curated list (`"birthday cake"`) is also contained —
the list order, not the containment, picks the result. -/
theorem curated_list_order_counterexample :
    "wedding cake" ∈ COMMON_STRAIN_NAMES ∧
    strContains (lowerStr "is wedding cake better than birthday cake")
      "wedding cake" = true ∧
    extract_strain_name "is wedding cake better than birthday cake" =
      some "birthday cake" ∧
    extract_strain_name "is wedding cake better than birthday cake" ≠
      some "wedding cake" := by
  decide

/-- Claim C9 amended: for every text, the extractor returns the first
curated name, in the fixed order of the list, contained case-insensitively
in the text (so when exactly one curated name is contained, it returns that
name), before any regex rule is consulted. -/
theorem curated_first_match_wins (text name : String)
    (h : COMMON_STRAIN_NAMES.find?
      (fun strain => strContains (lowerStr text) strain) = some name) :
    extract_strain_name text = some name := by
  simp only [extract_strain_name]
  rw [h]

/-- Witness for C9 at a concrete text containing exactly one curated name. -/
theorem curated_first_match_wins_witness :
    extract_strain_name "what is og kush" = some "og kush" :=
  curated_first_match_wins "what is og kush" "og kush" (by decide)

/-! ## Claim C10 -/

/-- Claim C10: the follow-up check is raw substring containment, so every
question whose lowercased text contains the two-character sequence `"it"`
anywhere — also inside longer words — keeps the current context: with any
present product context, `detect_topic_change` returns `false` for every
collaborator environment. -/
theorem substring_it_keeps_context (env : Env) (question : String)
    (ctx : Product) (h : strContains (lowerStr question) "it" = true) :
    detect_topic_change env question (some ctx) = false := by
  apply detect_topic_change_of_indicator
  have hlow : lowerStr "it" = "it" := by decide
  simp only [follow_up_indicators, List.any_cons, Bool.or_eq_true]
  exact Or.inl (by rw [hlow]; exact h)

/-- Witness for C10: `"it"` occurring only inside `"white"` and
`"quality"` still keeps the context. -/
theorem substring_it_keeps_context_witness :
    detect_topic_change envHit "Is white widow top quality?" (some prodZeta) = false :=
  substring_it_keeps_context envHit "Is white widow top quality?" prodZeta (by decide)

end VectorQA
